import Mathlib

/-!
Verification of the voosh-rag-FE chat client.

Shallow embedding of the stateful logic of the repository:

* the pipeline-status narrator of `ChatInterface`
  (`appendStatus`, `handleEvent`, the `ai_done` clear timer),
* the `sendMessage` flow (optimistic append, reset, success/failure),
* the auth reducer of `AuthContext`,
* the socket module (`connectSocket`).

JavaScript truthiness on optional numbers (`x || d`) is embedded as
`jsOrNat`, and optional values as `Option`.
-/

/-- JS `x || d` on an optional number: `undefined` and `0` are falsy. -/
def jsOrNat : Option Nat → Nat → Nat
  | some n, d => if n = 0 then d else n
  | none, d => d

/-- The closed set of pipeline event names the narrator subscribes to
(`ChatInterface`, the list passed to `sock.on`). -/
inductive PipelineEventType where
  | embedding_start
  | embedding_done
  | search_start
  | search_results
  | rag_context
  | ai_start
  | ai_done
deriving DecidableEq, Repr

/-- The parts of a pipeline event payload the handler reads.  `results` and
`passages` are untyped arrays of which only the length is used; they are
embedded as lists of strings.  A missing field is `none`. -/
structure Payload where
  results : Option (List String) := none
  resultCount : Option Nat := none
  passages : Option (List String) := none
  ts : Option Nat := none
deriving DecidableEq, Repr

/-- Embedding of `payload?.results?.length || payload?.resultCount || 0`
from the `search_results` branch of `handleEvent`. -/
def searchCount (p : Payload) : Nat :=
  jsOrNat (p.results.map List.length) (jsOrNat p.resultCount 0)

/-- Embedding of `payload?.passages?.length || 0` from the `rag_context`
branch of `handleEvent`. -/
def ragCount (p : Payload) : Nat :=
  jsOrNat (p.passages.map List.length) 0

/-- Pluralization suffix: empty when the count equals 1, otherwise the
letter s. -/
def pluralSuffix (n : Nat) : String :=
  if n = 1 then "" else "s"

/-- The status line appended for each event type, with the counts
interpolated exactly as in the `switch` of `handleEvent`. -/
def statusLine (e : PipelineEventType) (p : Payload) : String :=
  match e with
  | .embedding_start => "Analyzing your question (building semantic vector)..."
  | .embedding_done => "Understanding captured. Searching knowledge base for matches..."
  | .search_start => "Scanning indexed content for relevant chunks..."
  | .search_results =>
      "Found " ++ toString (searchCount p) ++ " candidate passage"
        ++ pluralSuffix (searchCount p) ++ ". Refining context..."
  | .rag_context =>
      "Selected top " ++ toString (ragCount p) ++ " passage"
        ++ pluralSuffix (ragCount p) ++ " to ground the answer."
  | .ai_start => "Generating answer grounded in retrieved context..."
  | .ai_done => "Answer ready."

/-- Embedding of `appendStatus` from `ChatInterface`: append `line` unless it equals the
last element already present (`prev[prev.length - 1] === line`). -/
def appendStatus (prev : List String) (line : String) : List String :=
  if prev.getLast? = some line then prev else prev ++ [line]

/-- A recorded raw pipeline step (`PipelineStep` interface):
`{ type, ts: payload.ts || Date.now(), info: payload }`. -/
structure PipelineStep where
  type : PipelineEventType
  ts : Nat
  info : Payload
deriving DecidableEq, Repr

/-- Message role: user or assistant. -/
inductive Role where
  | user
  | assistant
deriving DecidableEq, Repr

/-- Embedding of `ChatMessage` from the types module (context passages
omitted: no claim reads them). -/
structure ChatMessage where
  id : String
  role : Role
  content : String
  createdAt : Nat
deriving DecidableEq, Repr

/-- Embedding of `ChatSession` from the types module. -/
structure ChatSession where
  id : String
  title : Option String := none
  createdAt : Nat
  updatedAt : Nat
  messages : Option (List ChatMessage) := none
deriving DecidableEq, Repr

/-- The `ChatInterface` component state (the `useState` hooks that the
narrator and `sendMessage` read or write). -/
structure ChatState where
  currentSession : Option ChatSession := none
  messages : List ChatMessage := []
  isSending : Bool := false
  error : Option String := none
  pipelineSteps : List PipelineStep := []
  statusMessages : List String := []
  streaming : Bool := false
  clearScheduled : Bool := false
deriving DecidableEq, Repr

/-- The socket event handler `handleEvent(type)(payload)`: record the raw
step, append the narrated status line, and toggle `streaming` on
`ai_start` / `ai_done`; `ai_done` additionally schedules the status clear
(`setTimeout(() => setStatusMessages([]), 3000)`), modelled by the
`clearScheduled` flag.  `now` stands for `Date.now()`. -/
def handleEvent (now : Nat) (e : PipelineEventType) (p : Payload)
    (s : ChatState) : ChatState :=
  let step : PipelineStep := { type := e, ts := jsOrNat p.ts now, info := p }
  let s1 := { s with pipelineSteps := s.pipelineSteps ++ [step] }
  let s2 := { s1 with
    statusMessages := appendStatus s1.statusMessages (statusLine e p) }
  match e with
  | .ai_start => { s2 with streaming := true }
  | .ai_done => { s2 with streaming := false, clearScheduled := true }
  | _ => s2

/-- Handle a sequence of delivered events in order. -/
def runEvents (s : ChatState) (evs : List (Nat × PipelineEventType × Payload)) :
    ChatState :=
  evs.foldl (fun st ev => handleEvent ev.1 ev.2.1 ev.2.2 st) s

/-- The scheduled timer callback firing: `setStatusMessages([])`. -/
def fireClearTimer (s : ChatState) : ChatState :=
  { s with statusMessages := [], clearScheduled := false }

/-- Embedding of the JS `String.prototype.trim`: strip leading and
trailing whitespace from the character sequence. -/
def jsTrim (s : String) : String :=
  String.mk
    (((s.data.dropWhile Char.isWhitespace).reverse.dropWhile
        Char.isWhitespace).reverse)

/-- The optimistic user message built in `sendMessage`: id from
`Date.now().toString()`, role user, trimmed content, creation time now. -/
def mkUserMessage (now : Nat) (content : String) : ChatMessage :=
  { id := toString now, role := .user, content := jsTrim content, createdAt := now }

/-- The part of `sendMessage` executed before the API call resolves:
set `isSending`, clear `error`, append the optimistic user message, and
reset `pipelineSteps` and `statusMessages` to `[]`. -/
def sendMessageStarted (now : Nat) (content : String) (s : ChatState) :
    ChatState :=
  { s with
    isSending := true
    error := none
    messages := s.messages ++ [mkUserMessage now content]
    pipelineSteps := []
    statusMessages := [] }

/-- Embedding of `sendMessage` up to (and excluding) the `await`,
including the guard `if (!currentSession || !content.trim()) return`. -/
def sendMessageStart (now : Nat) (content : String) (s : ChatState) :
    ChatState :=
  match s.currentSession with
  | none => s
  | some _ =>
      if jsTrim content = "" then s
      else sendMessageStarted now content s

/-- Outcome of the `chatAPI.sendMessage` call. -/
inductive ApiOutcome where
  | success (response : ChatMessage)
  | failure
deriving DecidableEq, Repr

/-- The continuation of `sendMessage` once the API call resolves, applied to
the state at that moment.  On success the temporary message is sliced off
and the pair (user message, response) appended; on failure the temporary
message is sliced off and the error banner set.  `finally` clears
`isSending`. -/
def sendMessageResolve (now : Nat) (content : String) (outcome : ApiOutcome)
    (t : ChatState) : ChatState :=
  match outcome with
  | .success response =>
      { t with
        messages := t.messages.dropLast ++ [mkUserMessage now content, response]
        isSending := false }
  | .failure =>
      { t with
        error := some "Failed to send message"
        messages := t.messages.dropLast
        isSending := false }

/-- A whole `sendMessage` call: the guarded start, then any sequence of
socket events delivered while the API call is in flight, then the
resolution. -/
def sendMessageRun (now : Nat) (content : String)
    (evs : List (Nat × PipelineEventType × Payload)) (outcome : ApiOutcome)
    (s : ChatState) : ChatState :=
  match s.currentSession with
  | none => s
  | some _ =>
      if jsTrim content = "" then s
      else
        sendMessageResolve now content outcome
          (runEvents (sendMessageStarted now content s) evs)

/-- Embedding of `User` from the types module. -/
structure User where
  id : Nat
  email : String
  name : Option String := none
deriving DecidableEq, Repr

/-- Embedding of `AuthResponse` from the types module: `access_token` and
`user` are both required (non-null) fields. -/
structure AuthResponse where
  access_token : String
  user : User
deriving DecidableEq, Repr

/-- The tagged-union `AuthAction` of `AuthContext`. -/
inductive AuthAction where
  | auth_start
  | auth_success (payload : AuthResponse)
  | auth_error (payload : String)
  | auth_logout
  | clear_error
deriving DecidableEq, Repr

/-- Embedding of `AuthState` from `AuthContext`. -/
structure AuthState where
  user : Option User
  token : Option String
  isAuthenticated : Bool
  isLoading : Bool
  error : Option String
deriving DecidableEq, Repr

/-- Embedding of `authReducer` from `AuthContext`, case by case. -/
def authReducer (state : AuthState) (action : AuthAction) : AuthState :=
  match action with
  | .auth_start =>
      { state with isLoading := true, error := none }
  | .auth_success payload =>
      { state with
        isLoading := false
        isAuthenticated := true
        user := some payload.user
        token := some payload.access_token
        error := none }
  | .auth_error payload =>
      { state with
        isLoading := false
        isAuthenticated := false
        user := none
        token := none
        error := some payload }
  | .auth_logout =>
      { state with
        isAuthenticated := false
        user := none
        token := none
        error := none }
  | .clear_error =>
      { state with error := none }

/-- The `initialState` of `AuthContext`. -/
def authInitialState : AuthState :=
  { user := none
    token := none
    isAuthenticated := false
    isLoading := false
    error := none }

/-- Fold a list of dispatched actions from the initial auth state. -/
def runAuth (actions : List AuthAction) : AuthState :=
  actions.foldl authReducer authInitialState

/-- The auth coherence invariant: `isAuthenticated` holds exactly when both
`user` and `token` are present. -/
def authInvariant (s : AuthState) : Prop :=
  s.isAuthenticated = true ↔ (s.user ≠ none ∧ s.token ≠ none)

instance (s : AuthState) : Decidable (authInvariant s) := by
  unfold authInvariant; infer_instance

/-- A socket object as far as the module-level code observes it: an
identity, its connection status, and the options passed to `io(...)`. -/
structure Socket where
  sid : Nat
  connected : Bool
  url : String
  path : String
  auth : Option String
deriving DecidableEq, Repr

/-- The module-level mutable `socket` variable of the socket service. -/
structure SocketModuleState where
  socket : Option Socket
deriving DecidableEq, Repr

/-- Default value of `config.SOCKET_URL`. -/
def SOCKET_URL : String := "http://localhost:3000"

/-- Default value of `config.SOCKET_PATH`. -/
def SOCKET_PATH : String := "/ws"

/-- Embedding of the `io(config.SOCKET_URL, options)` call: a freshly
created socket, not yet connected, with `fresh` as its identity.  The
options carry the path and, when `authToken` is truthy (a JS string is
falsy when empty), the auth token. -/
def ioCreate (fresh : Nat) (authToken : Option String) : Socket :=
  { sid := fresh
    connected := false
    url := SOCKET_URL
    path := SOCKET_PATH
    auth := match authToken with
      | some t => if t = "" then none else some t
      | none => none }

/-- Embedding of `connectSocket` from the socket service: reuse the module socket when it
exists and is connected, otherwise create and store a fresh one. -/
def connectSocket (fresh : Nat) (authToken : Option String)
    (st : SocketModuleState) : Socket × SocketModuleState :=
  match st.socket with
  | some s =>
      if s.connected then (s, st)
      else
        let s' := ioCreate fresh authToken
        (s', { socket := some s' })
  | none =>
      let s' := ioCreate fresh authToken
      (s', { socket := some s' })

/-- The transport finishing the connection handshake: the stored socket (if
any) flips its `connected` flag to `true`. -/
def markConnected (st : SocketModuleState) : SocketModuleState :=
  { socket := st.socket.map (fun s => { s with connected := true }) }

/-! Basic facts about `handleEvent`. -/

/-- Every branch of `handleEvent` updates `statusMessages` through
`appendStatus` with the narrated line. -/
theorem handleEvent_statusMessages (now : Nat) (e : PipelineEventType)
    (p : Payload) (s : ChatState) :
    (handleEvent now e p s).statusMessages
      = appendStatus s.statusMessages (statusLine e p) := by
  cases e <;> rfl

/-- `handleEvent` never touches the message list. -/
theorem handleEvent_messages (now : Nat) (e : PipelineEventType)
    (p : Payload) (s : ChatState) :
    (handleEvent now e p s).messages = s.messages := by
  cases e <;> rfl

/-- `handleEvent` never touches the error banner. -/
theorem handleEvent_error (now : Nat) (e : PipelineEventType)
    (p : Payload) (s : ChatState) :
    (handleEvent now e p s).error = s.error := by
  cases e <;> rfl

/-- Unfolding `runEvents` over a cons. -/
theorem runEvents_cons (s : ChatState)
    (ev : Nat × PipelineEventType × Payload)
    (evs : List (Nat × PipelineEventType × Payload)) :
    runEvents s (ev :: evs) = runEvents (handleEvent ev.1 ev.2.1 ev.2.2 s) evs :=
  rfl

/-- A sequence of pipeline events leaves the message list unchanged. -/
theorem runEvents_messages (evs : List (Nat × PipelineEventType × Payload))
    (s : ChatState) : (runEvents s evs).messages = s.messages := by
  induction evs generalizing s with
  | nil => rfl
  | cons ev rest ih =>
      rw [runEvents_cons, ih, handleEvent_messages]

/-- A sequence of pipeline events leaves the error banner unchanged. -/
theorem runEvents_error (evs : List (Nat × PipelineEventType × Payload))
    (s : ChatState) : (runEvents s evs).error = s.error := by
  induction evs generalizing s with
  | nil => rfl
  | cons ev rest ih =>
      rw [runEvents_cons, ih, handleEvent_error]

/-- `appendStatus` preserves freedom from adjacent duplicates. -/
theorem appendStatus_chain (l : List String) (x : String)
    (h : l.Chain' (· ≠ ·)) : (appendStatus l x).Chain' (· ≠ ·) := by
  unfold appendStatus
  split
  · exact h
  · rename_i hne
    rw [List.chain'_append]
    refine ⟨h, List.chain'_singleton x, ?_⟩
    intro a ha y hy hay
    rw [List.head?_cons, Option.mem_def, Option.some.injEq] at hy
    apply hne
    rw [Option.mem_def] at ha
    rw [ha, hay, ← hy]

/-- Handling any event sequence preserves freedom from adjacent
duplicates in the status list. -/
theorem runEvents_chain (evs : List (Nat × PipelineEventType × Payload))
    (s : ChatState) (h : s.statusMessages.Chain' (· ≠ ·)) :
    ((runEvents s evs).statusMessages).Chain' (· ≠ ·) := by
  induction evs generalizing s with
  | nil => exact h
  | cons ev rest ih =>
      rw [runEvents_cons]
      exact ih _ (by rw [handleEvent_statusMessages]; exact appendStatus_chain _ _ h)

/-- C1: from an empty status list, any sequence of narrated pipeline events
yields a status list with no two adjacent identical strings; appending a
line equal to the immediately preceding one leaves the list unchanged;
and equal non-adjacent lines can both appear. -/
theorem narrator_no_adjacent_duplicates :
    (∀ (s : ChatState) (evs : List (Nat × PipelineEventType × Payload)),
        s.statusMessages = [] →
        ((runEvents s evs).statusMessages).Chain' (· ≠ ·))
    ∧ (∀ (l : List String) (x : String), l.getLast? = some x →
        appendStatus l x = l)
    ∧ (∃ evs : List (Nat × PipelineEventType × Payload), ∃ a b : String,
        a ≠ b ∧ (runEvents {} evs).statusMessages = [a, b, a]) := by
  refine ⟨?_, ?_, ?_⟩
  · intro s evs h
    exact runEvents_chain evs s (by rw [h]; exact List.chain'_nil)
  · intro l x h
    unfold appendStatus
    rw [if_pos h]
  · refine ⟨[(0, .search_results, { results := some ["r"] }),
             (0, .rag_context, { passages := some ["r"] }),
             (0, .search_results, { results := some ["r"] })],
      "Found 1 candidate passage. Refining context...",
      "Selected top 1 passage to ground the answer.", by decide, by decide⟩

/-- Witness for C1 at concrete inputs. -/
theorem narrator_no_adjacent_duplicates_witness :
    ((runEvents {} [(0, .ai_start, {})]).statusMessages).Chain' (· ≠ ·)
    ∧ appendStatus ["Answer ready."] "Answer ready." = ["Answer ready."] :=
  ⟨narrator_no_adjacent_duplicates.1 {} [(0, .ai_start, {})] rfl,
   narrator_no_adjacent_duplicates.2.1 ["Answer ready."] "Answer ready." rfl⟩

/-- C2: `ai_start` sets the streaming flag, `ai_done` clears it, and no
other event type changes it. -/
theorem streaming_flag_transitions (now : Nat) (p : Payload) (s : ChatState) :
    (handleEvent now .ai_start p s).streaming = true
    ∧ (handleEvent now .ai_done p s).streaming = false
    ∧ ∀ e : PipelineEventType, e ≠ .ai_start → e ≠ .ai_done →
        (handleEvent now e p s).streaming = s.streaming := by
  refine ⟨rfl, rfl, ?_⟩
  intro e h1 h2
  cases e <;> first
    | rfl
    | exact absurd rfl h1
    | exact absurd rfl h2

/-- Witness for C2 at concrete inputs. -/
theorem streaming_flag_transitions_witness :
    (handleEvent 0 .embedding_start {} {}).streaming = ({} : ChatState).streaming :=
  (streaming_flag_transitions 0 {} {}).2.2 .embedding_start (by decide) (by decide)

/-- Evaluation of the JS fallback when the first operand is a truthy
(non-zero) number. -/
theorem jsOrNat_some_ne (n d : Nat) (h : n ≠ 0) : jsOrNat (some n) d = n := by
  show (if n = 0 then d else n) = n
  exact if_neg h

/-- Evaluation of the JS fallback against the default `0`. -/
theorem jsOrNat_some_zero (c : Nat) : jsOrNat (some c) 0 = c := by
  show (if c = 0 then 0 else c) = c
  split <;> omega

/-- With a current session and non-blank content, the guarded start of
`sendMessage` reduces to the unguarded update. -/
theorem sendMessageStart_eq (now : Nat) (content : String) (s : ChatState)
    (sess : ChatSession) (h1 : s.currentSession = some sess)
    (h2 : jsTrim content ≠ "") :
    sendMessageStart now content s = sendMessageStarted now content s := by
  unfold sendMessageStart
  rw [h1]
  exact if_neg h2

/-- Appending to an empty status list always keeps the line. -/
theorem appendStatus_nil (line : String) : appendStatus [] line = [line] := by
  unfold appendStatus
  rw [if_neg (by simp)]
  rfl

/-- C3: with a current session and non-blank content, `sendMessage` resets
the status list and the raw pipeline-step log to empty before the API call,
so the first event of the new cycle appends its line to an empty list. -/
theorem sendMessage_resets_narrator (now : Nat) (content : String)
    (s : ChatState) (sess : ChatSession)
    (h1 : s.currentSession = some sess) (h2 : jsTrim content ≠ "") :
    (sendMessageStart now content s).statusMessages = []
    ∧ (sendMessageStart now content s).pipelineSteps = []
    ∧ ∀ (n : Nat) (e : PipelineEventType) (p : Payload),
        (handleEvent n e p (sendMessageStart now content s)).statusMessages
          = [statusLine e p] := by
  rw [sendMessageStart_eq now content s sess h1 h2]
  refine ⟨rfl, rfl, ?_⟩
  intro n e p
  rw [handleEvent_statusMessages]
  exact appendStatus_nil _

/-- A concrete chat session used by witnesses. -/
def demoSession : ChatSession :=
  { id := "session-1", createdAt := 100, updatedAt := 100 }

/-- A concrete chat state with an active session, some history and stale
narrator state, used by witnesses. -/
def demoState : ChatState :=
  { currentSession := some demoSession
    messages := [{ id := "m1", role := .assistant, content := "hello", createdAt := 50 }]
    statusMessages := ["Answer ready."]
    pipelineSteps := [{ type := .ai_done, ts := 60, info := {} }] }

/-- Witness for C3 at concrete inputs. -/
theorem sendMessage_resets_narrator_witness :
    (sendMessageStart 200 "what happened today?" demoState).statusMessages = []
    ∧ (sendMessageStart 200 "what happened today?" demoState).pipelineSteps = [] :=
  ⟨(sendMessage_resets_narrator 200 "what happened today?" demoState demoSession
      rfl (by decide)).1,
   (sendMessage_resets_narrator 200 "what happened today?" demoState demoSession
      rfl (by decide)).2.1⟩

/-- C4: `ai_done` schedules the status clear, and when the scheduled clear
fires the status list is unconditionally empty, whatever events were
handled in between. -/
theorem ai_done_clear_timer (now : Nat) (p : Payload) (s : ChatState) :
    (handleEvent now .ai_done p s).clearScheduled = true
    ∧ (∀ t : ChatState, (fireClearTimer t).statusMessages = [])
    ∧ ∀ evs : List (Nat × PipelineEventType × Payload),
        (fireClearTimer (runEvents (handleEvent now .ai_done p s) evs)).statusMessages
          = [] :=
  ⟨rfl, fun _ => rfl, fun _ => rfl⟩

/-- C5: every event name maps to one fixed template — the line is
determined by the event name alone except for the two counted events,
where it is determined by the event name and the payload count; the counts
come from the payload as the length of `results` (falling back to
`resultCount`) and the number of `passages`. -/
theorem statusLine_fixed_templates :
    (∀ (e : PipelineEventType) (p₁ p₂ : Payload),
        e ≠ .search_results → e ≠ .rag_context →
        statusLine e p₁ = statusLine e p₂)
    ∧ (∀ p₁ p₂ : Payload, searchCount p₁ = searchCount p₂ →
        statusLine .search_results p₁ = statusLine .search_results p₂)
    ∧ (∀ p₁ p₂ : Payload, ragCount p₁ = ragCount p₂ →
        statusLine .rag_context p₁ = statusLine .rag_context p₂)
    ∧ (∀ p : Payload, statusLine .search_results p
        = "Found " ++ toString (searchCount p) ++ " candidate passage"
            ++ pluralSuffix (searchCount p) ++ ". Refining context...")
    ∧ (∀ p : Payload, statusLine .rag_context p
        = "Selected top " ++ toString (ragCount p) ++ " passage"
            ++ pluralSuffix (ragCount p) ++ " to ground the answer.")
    ∧ (∀ (p : Payload) (l : List String),
        p.results = some l → l.length ≠ 0 → searchCount p = l.length)
    ∧ (∀ (p : Payload) (c : Nat),
        p.results = none → p.resultCount = some c → searchCount p = c)
    ∧ (∀ (p : Payload) (l : List String),
        p.passages = some l → ragCount p = l.length) := by
  refine ⟨?_, ?_, ?_, fun _ => rfl, fun _ => rfl, ?_, ?_, ?_⟩
  · intro e p₁ p₂ h1 h2
    cases e <;> first
      | rfl
      | exact absurd rfl h1
      | exact absurd rfl h2
  · intro p₁ p₂ h
    unfold statusLine
    rw [h]
  · intro p₁ p₂ h
    unfold statusLine
    rw [h]
  · intro p l hres hlen
    unfold searchCount
    rw [hres]
    exact jsOrNat_some_ne _ _ hlen
  · intro p c hres hcnt
    unfold searchCount
    rw [hres, hcnt]
    exact jsOrNat_some_zero c
  · intro p l hpass
    unfold ragCount
    rw [hpass]
    exact jsOrNat_some_zero _

/-- Witness for C5 at concrete inputs. -/
theorem statusLine_fixed_templates_witness :
    statusLine .embedding_start { results := some ["a"] }
      = statusLine .embedding_start { passages := some ["b", "c"] }
    ∧ searchCount { results := some ["a", "b"] } = 2
    ∧ searchCount { resultCount := some 4 } = 4
    ∧ ragCount { passages := some ["a", "b", "c"] } = 3 :=
  ⟨statusLine_fixed_templates.1 .embedding_start _ _ (by decide) (by decide),
   statusLine_fixed_templates.2.2.2.2.2.1 { results := some ["a", "b"] }
     ["a", "b"] rfl (by decide),
   statusLine_fixed_templates.2.2.2.2.2.2.1 { resultCount := some 4 } 4 rfl rfl,
   statusLine_fixed_templates.2.2.2.2.2.2.2 { passages := some ["a", "b", "c"] }
     ["a", "b", "c"] rfl⟩

/-- C6: a `search_results` payload count of 1 gives the singular phrasing
and a count of 2 the plural phrasing. -/
theorem search_results_pluralization :
    statusLine .search_results { results := some ["p1"] }
      = "Found 1 candidate passage. Refining context..."
    ∧ statusLine .search_results { results := some ["p1", "p2"] }
      = "Found 2 candidate passages. Refining context..." := by
  constructor <;> rfl

/-- Dropping the last element undoes appending one element. -/
theorem dropLast_append_single (l : List ChatMessage) (m : ChatMessage) :
    (l ++ [m]).dropLast = l := by
  rw [List.dropLast_concat]

/-- C7: when the API call of `sendMessage` fails (with a current session
and non-blank content, and whatever events arrive while the call is in
flight), the error banner is set to the fixed short message and the
optimistic user message is removed, so the message list equals its value
from before the call. -/
theorem sendMessage_failure_atomic (now : Nat) (content : String)
    (evs : List (Nat × PipelineEventType × Payload)) (s : ChatState)
    (sess : ChatSession) (h1 : s.currentSession = some sess)
    (h2 : jsTrim content ≠ "") :
    (sendMessageRun now content evs .failure s).messages = s.messages
    ∧ (sendMessageRun now content evs .failure s).error
        = some "Failed to send message" := by
  unfold sendMessageRun
  rw [h1]
  rw [if_neg h2]
  unfold sendMessageResolve
  constructor
  · show (runEvents (sendMessageStarted now content s) evs).messages.dropLast
      = s.messages
    rw [runEvents_messages]
    exact dropLast_append_single _ _
  · rfl

/-- Witness for C7 at concrete inputs. -/
theorem sendMessage_failure_atomic_witness :
    (sendMessageRun 200 "what happened today?" [(201, .embedding_start, {})]
        .failure demoState).messages = demoState.messages
    ∧ (sendMessageRun 200 "what happened today?" [(201, .embedding_start, {})]
        .failure demoState).error = some "Failed to send message" :=
  sendMessage_failure_atomic 200 "what happened today?"
    [(201, .embedding_start, {})] demoState demoSession rfl (by decide)

/-- C8: when the API call of `sendMessage` succeeds (with a current session
and non-blank content, and whatever events arrive while the call is in
flight), the final message list is exactly the previous list, unchanged and
in order, extended at the end by the trimmed user message and then the
assistant response. -/
theorem sendMessage_success_appends (now : Nat) (content : String)
    (evs : List (Nat × PipelineEventType × Payload))
    (response : ChatMessage) (s : ChatState) (sess : ChatSession)
    (h1 : s.currentSession = some sess) (h2 : jsTrim content ≠ "") :
    (sendMessageRun now content evs (.success response) s).messages
      = s.messages ++ [mkUserMessage now content, response]
    ∧ (mkUserMessage now content).content = jsTrim content := by
  unfold sendMessageRun
  rw [h1]
  rw [if_neg h2]
  unfold sendMessageResolve
  constructor
  · show (runEvents (sendMessageStarted now content s) evs).messages.dropLast
        ++ [mkUserMessage now content, response]
      = s.messages ++ [mkUserMessage now content, response]
    rw [runEvents_messages]
    rw [show (sendMessageStarted now content s).messages
        = s.messages ++ [mkUserMessage now content] from rfl]
    rw [dropLast_append_single]
  · rfl

/-- A concrete assistant response used by witnesses. -/
def demoResponse : ChatMessage :=
  { id := "m2", role := .assistant, content := "Here is the news.", createdAt := 210 }

/-- Witness for C8 at concrete inputs. -/
theorem sendMessage_success_appends_witness :
    (sendMessageRun 200 "what happened today?" [(201, .embedding_start, {})]
        (.success demoResponse) demoState).messages
      = demoState.messages ++ [mkUserMessage 200 "what happened today?", demoResponse] :=
  (sendMessage_success_appends 200 "what happened today?"
    [(201, .embedding_start, {})] demoResponse demoState demoSession rfl
    (by decide)).1

/-- The strong reachable-state invariant of the auth reducer:
`isAuthenticated` tracks the presence of `user` and of `token`
individually. -/
def authStrongInvariant (s : AuthState) : Prop :=
  (s.isAuthenticated = true ↔ s.user ≠ none)
  ∧ (s.isAuthenticated = true ↔ s.token ≠ none)

/-- Every auth action preserves the strong invariant. -/
theorem authStrong_preserved (s : AuthState) (a : AuthAction)
    (h : authStrongInvariant s) : authStrongInvariant (authReducer s a) := by
  cases a <;> simp_all [authReducer, authStrongInvariant] <;> tauto

/-- The strong invariant holds after folding any action list over any
state satisfying it. -/
theorem authStrong_foldl (actions : List AuthAction) (s : AuthState)
    (h : authStrongInvariant s) :
    authStrongInvariant (actions.foldl authReducer s) := by
  induction actions generalizing s with
  | nil => exact h
  | cons a rest ih => exact ih _ (authStrong_preserved s a h)

/-- The strong invariant holds in every state reachable from the initial
auth state. -/
theorem authStrong_runAuth (actions : List AuthAction) :
    authStrongInvariant (runAuth actions) :=
  authStrong_foldl actions authInitialState
    ⟨by simp [authInitialState], by simp [authInitialState]⟩

/-- C9: the auth reducer preserves the coherence invariant
(`isAuthenticated` exactly when both `user` and `token` are present), the
invariant holds in every reachable state, and in particular every
reachable state with `isAuthenticated = false` has `user = none` and
`token = none`. -/
theorem authReducer_auth_coherence :
    (∀ (s : AuthState) (a : AuthAction),
        authInvariant s → authInvariant (authReducer s a))
    ∧ (∀ actions : List AuthAction, authInvariant (runAuth actions))
    ∧ (∀ actions : List AuthAction,
        (runAuth actions).isAuthenticated = false →
          (runAuth actions).user = none ∧ (runAuth actions).token = none) := by
  refine ⟨?_, ?_, ?_⟩
  · intro s a h
    cases a <;> simp_all [authReducer, authInvariant]
  · intro actions
    have hs := authStrong_runAuth actions
    constructor
    · intro ht
      exact ⟨hs.1.mp ht, hs.2.mp ht⟩
    · intro hb
      exact hs.1.mpr hb.1
  · intro actions h
    have hs := authStrong_runAuth actions
    constructor
    · by_contra hu
      have ht := hs.1.mpr hu
      rw [h] at ht
      exact Bool.false_ne_true ht
    · by_contra hu
      have ht := hs.2.mpr hu
      rw [h] at ht
      exact Bool.false_ne_true ht

/-- Witness for C9 at concrete inputs. -/
theorem authReducer_auth_coherence_witness :
    authInvariant (authReducer authInitialState .auth_start)
    ∧ ((runAuth []).user = none ∧ (runAuth []).token = none) :=
  ⟨authReducer_auth_coherence.1 authInitialState .auth_start (by decide),
   authReducer_auth_coherence.2.2 [] rfl⟩

/-- C10: while the stored socket is connected, `connectSocket` returns it
unchanged whatever token is passed; hence a second call after a first call
whose socket has become connected yields the socket created by the first
call and leaves the module state untouched. -/
theorem connectSocket_idempotent_when_connected :
    (∀ (f : Nat) (t : Option String) (st : SocketModuleState) (s : Socket),
        st.socket = some s → s.connected = true →
        connectSocket f t st = (s, st))
    ∧ (∀ (f1 f2 : Nat) (t1 t2 : Option String) (st : SocketModuleState),
        (connectSocket f2 t2 (markConnected (connectSocket f1 t1 st).2)).1.sid
            = (connectSocket f1 t1 st).1.sid
        ∧ (connectSocket f2 t2 (markConnected (connectSocket f1 t1 st).2)).2
            = markConnected (connectSocket f1 t1 st).2) := by
  constructor
  · intro f t st s hs hc
    unfold connectSocket
    rw [hs]
    simp [hc]
  · intro f1 f2 t1 t2 st
    rcases hst : st.socket with _ | s
    · constructor <;> simp [connectSocket, hst, markConnected, ioCreate]
    · by_cases hc : s.connected
      · constructor <;> simp [connectSocket, hst, hc, markConnected]
      · constructor <;> simp [connectSocket, hst, hc, markConnected, ioCreate]

/-- A concrete connected socket used by witnesses. -/
def demoSocket : Socket :=
  { sid := 1
    connected := true
    url := SOCKET_URL
    path := SOCKET_PATH
    auth := none }

/-- Witness for C10 at concrete inputs. -/
theorem connectSocket_idempotent_when_connected_witness :
    connectSocket 2 (some "token-2") { socket := some demoSocket }
      = (demoSocket, { socket := some demoSocket }) :=
  connectSocket_idempotent_when_connected.1 2 (some "token-2")
    { socket := some demoSocket } demoSocket rfl rfl
